import Mathlib

/-!
Verification of the Lookup Service (gRPC servicer) of the user microservice.

The embedding follows `users/grpc_server.py` and `users/models.py`:

* `User` is the stored record (`users.models.User`); the opaque UUID primary
  key is modelled as a `Nat`, timestamps as `Nat`.  The `password` field is the
  salted hash inherited from `AbstractBaseUser`; it is stored but never
  serialized by `to_dict`.
* The Credential Store (the database table) is a `List User`.
* Django's `QuerySet.get` is `dbGet`: the unique matching row, `DoesNotExist`
  when none matches, `MultipleObjectsReturned` when several do.
* The default ordering `Meta.ordering = ['-date_joined']` is modelled by a
  stable sort on the filtered rows (`activeByRecency`).
* Each servicer method returns a `GrpcResult`: the response message, the
  status code set on the gRPC context (if any), and the store state as the
  call leaves it (the methods only issue read queries, so they return it
  unchanged).
* JWT verification (`AccessToken(...)` from the token library) is external to
  the repository; it is abstracted as its outcome `TokenVerify`: either the
  embedded `user_id`, or a `TokenError` detail string.
-/

/-- A stored user row (`users.models.User`). -/
structure User where
  id : Nat
  email : String
  username : String
  first_name : String
  last_name : String
  phone_number : String
  is_active : Bool
  is_staff : Bool
  is_verified : Bool
  date_joined : Nat
  /-- Salted one-way password hash (from `AbstractBaseUser`); never serialized. -/
  password : String
  deriving Repr, DecidableEq

/-- The `UserData` gRPC message, as produced by `User.to_dict`. -/
structure UserData where
  id : String
  email : String
  username : String
  first_name : String
  last_name : String
  phone_number : String
  is_active : Bool
  is_verified : Bool
  date_joined : String
  deriving Repr, DecidableEq

/-- Serialization `User.to_dict`: the serialized form used in gRPC responses.  `str(self.id)`
becomes `toString`, `date_joined.isoformat()` is modelled as `toString` of the
timestamp (`date_joined` is `auto_now_add`, hence always set). -/
def User.to_dict (u : User) : UserData :=
  { id := toString u.id
    email := u.email
    username := u.username
    first_name := u.first_name
    last_name := u.last_name
    phone_number := u.phone_number
    is_active := u.is_active
    is_verified := u.is_verified
    date_joined := toString u.date_joined }

/-- gRPC status codes set via `context.set_code`. -/
inductive StatusCode where
  | NOT_FOUND
  | INTERNAL
  deriving Repr, DecidableEq

/-- The `UserResponse` message. -/
structure UserResponse where
  success : Bool
  message : String
  user : Option UserData
  deriving Repr, DecidableEq

/-- The `TokenResponse` message. -/
structure TokenResponse where
  valid : Bool
  message : String
  user_id : String
  email : String
  deriving Repr, DecidableEq

/-- The `ListUsersResponse` message. -/
structure ListUsersResponse where
  success : Bool
  users : List UserData
  total : Nat
  deriving Repr, DecidableEq

/-- Result of one servicer call: the response, the status code set on the
context (if any), and the Credential Store state after the call. -/
structure GrpcResult (ρ : Type) where
  response : ρ
  statusCode : Option StatusCode
  store : List User
  deriving Repr, DecidableEq

/-- Django `QuerySet.get(...)` over the store: `.ok u` for the unique match,
`.error false` for `DoesNotExist`, `.error true` for
`MultipleObjectsReturned`. -/
def dbGet (store : List User) (p : User → Bool) : Except Bool User :=
  match store.filter p with
  | [] => .error false
  | [u] => .ok u
  | _ => .error true

/-- Servicer method `UserServiceServicer.GetUser`: `User.objects.get(id=request.user_id)`;
`DoesNotExist` is answered with the not-found response and NOT_FOUND on the
context; any other exception with its text and INTERNAL. -/
def GetUser (store : List User) (user_id : Nat) : GrpcResult UserResponse :=
  match dbGet store (fun u => u.id == user_id) with
  | .ok u => ⟨⟨true, "User found.", some u.to_dict⟩, none, store⟩
  | .error false => ⟨⟨false, "User not found.", none⟩, some .NOT_FOUND, store⟩
  | .error true =>
      ⟨⟨false, "get() returned more than one User", none⟩, some .INTERNAL, store⟩

/-- Python's `str.lower()`: the string with every character lower-cased
(character-wise, as `String.toLower` does). -/
def strLower (s : String) : String :=
  ⟨s.data.map Char.toLower⟩

/-- Servicer method `UserServiceServicer.GetUserByEmail`:
`User.objects.get(email=request.email.lower())`. -/
def GetUserByEmail (store : List User) (email : String) : GrpcResult UserResponse :=
  match dbGet store (fun u => u.email == strLower email) with
  | .ok u => ⟨⟨true, "User found.", some u.to_dict⟩, none, store⟩
  | .error false => ⟨⟨false, "User not found.", none⟩, some .NOT_FOUND, store⟩
  | .error true =>
      ⟨⟨false, "get() returned more than one User", none⟩, some .INTERNAL, store⟩

/-- Outcome of `AccessToken(request.token)` — signature/expiry verification by
the external token library: either the embedded `user_id` claim, or a
`TokenError` with a detail message. -/
inductive TokenVerify where
  | ok (user_id : Nat)
  | tokenError (detail : String)
  deriving Repr, DecidableEq

/-- Servicer method `UserServiceServicer.ValidateToken`: on verification failure the
`TokenError` is reported as `Invalid token: <detail>`; on success the embedded
`user_id` is resolved against the store, rejecting missing and inactive
users. -/
def ValidateToken (store : List User) (tok : TokenVerify) : GrpcResult TokenResponse :=
  match tok with
  | .tokenError detail =>
      ⟨⟨false, "Invalid token: " ++ detail, "", ""⟩, none, store⟩
  | .ok user_id =>
      match dbGet store (fun u => u.id == user_id) with
      | .ok u =>
          if !u.is_active then
            ⟨⟨false, "User account is disabled.", "", ""⟩, none, store⟩
          else
            ⟨⟨true, "Token is valid.", toString u.id, u.email⟩, none, store⟩
      | .error false =>
          ⟨⟨false, "User not found.", "", ""⟩, none, store⟩
      | .error true =>
          ⟨⟨false, "get() returned more than one User", "", ""⟩, some .INTERNAL, store⟩

/-- Rows of `User.objects.filter(is_active=True)`, before ordering. -/
def activeUsers (store : List User) : List User :=
  store.filter (·.is_active)

/-- Relation: `a` was created no earlier than `b`: the order `-date_joined` sorts by. -/
def recencyOrder (a b : User) : Prop :=
  b.date_joined ≤ a.date_joined

instance : DecidableRel recencyOrder :=
  fun a b => Nat.decLe b.date_joined a.date_joined

instance : IsTotal User recencyOrder :=
  ⟨fun a b => le_total b.date_joined a.date_joined⟩

instance : IsTrans User recencyOrder :=
  ⟨fun _ _ _ h1 h2 => le_trans h2 h1⟩

/-- The rows of `User.objects.filter(is_active=True)` in the model's default
ordering `Meta.ordering = ['-date_joined']` (most recently created first). -/
def activeByRecency (store : List User) : List User :=
  (activeUsers store).insertionSort recencyOrder

/-- Servicer method `UserServiceServicer.ListUsers`.  `page = request.page or 1` defaults only
a zero (proto3-absent) page; `page_size = min(request.page_size or 20, 100)`.
Django queryset slicing `[offset:offset+page_size]` rejects negative bounds
(`Negative indexing is not supported.`), which the generic exception handler
turns into the fault response with INTERNAL. -/
def ListUsers (store : List User) (reqPage reqPageSize : Int) : GrpcResult ListUsersResponse :=
  let page : Int := if reqPage = 0 then 1 else reqPage
  let page_size : Int := min (if reqPageSize = 0 then 20 else reqPageSize) 100
  let offset : Int := (page - 1) * page_size
  let stop : Int := offset + page_size
  if offset < 0 ∨ stop < 0 then
    ⟨⟨false, [], 0⟩, some .INTERNAL, store⟩
  else
    ⟨⟨true,
      (((activeByRecency store).drop offset.toNat).take (stop.toNat - offset.toNat)).map
        User.to_dict,
      (activeUsers store).length⟩, none, store⟩

/-- The record with the password hash blanked: everything a Lookup Service
response may legitimately depend on. -/
def User.scrub (u : User) : User :=
  { u with password := "" }

/-- Shorthand for building concrete store rows in examples. -/
def mkUser (i : Nat) (e : String) (act : Bool) (dj : Nat) : User :=
  ⟨i, e, "", "", "", "", act, false, false, dj, "hash"⟩

/-- A concrete store: three active users and one inactive user. -/
def demoStore : List User :=
  [mkUser 1 "ann@x.com" true 10, mkUser 2 "bob@x.com" true 20,
   mkUser 3 "cat@x.com" true 30, mkUser 4 "dan@x.com" false 40]

section Helpers

/-- Under a duplicate-free key column, filtering on the key of a member row
returns exactly that row (Django's unique-column `get`). -/
theorem filter_eq_singleton_of_nodup_key {α : Type} {k : User → α}
    {p : User → Bool} {u : User} (hchar : ∀ v, p v = true ↔ k v = k u) :
    ∀ {s : List User}, (s.map k).Nodup → u ∈ s → s.filter p = [u] := by
  intro s
  induction s with
  | nil => intro _ h; cases h
  | cons v rest ih =>
    intro hnd hu
    rw [List.map_cons, List.nodup_cons] at hnd
    rcases List.mem_cons.mp hu with rfl | hmem
    · rw [List.filter_cons_of_pos ((hchar u).mpr rfl)]
      have hrest : rest.filter p = [] := by
        rw [List.filter_eq_nil_iff]
        intro w hw hpw
        exact hnd.1 (((hchar w).mp (by simpa using hpw)) ▸ List.mem_map_of_mem k hw)
      rw [hrest]
    · have hpv : ¬ p v = true := by
        intro hv
        exact hnd.1 (((hchar v).mp hv).symm ▸ List.mem_map_of_mem k hmem)
      rw [List.filter_cons_of_neg (by simpa using hpv)]
      exact ih hnd.2 hmem

/-- Lemma: `QuerySet.get` succeeds with the member row when the key column is
duplicate-free. -/
theorem dbGet_ok_of_unique {α : Type} {k : User → α} {p : User → Bool}
    {u : User} {s : List User} (hchar : ∀ v, p v = true ↔ k v = k u)
    (hnd : (s.map k).Nodup) (hu : u ∈ s) : dbGet s p = .ok u := by
  unfold dbGet
  rw [filter_eq_singleton_of_nodup_key hchar hnd hu]

/-- Lemma: `QuerySet.get` raises `DoesNotExist` when nothing matches. -/
theorem dbGet_notFound {p : User → Bool} {s : List User}
    (h : ∀ u ∈ s, p u = false) : dbGet s p = .error false := by
  unfold dbGet
  rw [List.filter_eq_nil_iff.mpr (fun u hu => by simp [h u hu])]

/-- Behavior of `GetUser` on the id of a member row, under unique ids. -/
theorem GetUser_found {s : List User} {u : User}
    (hnd : (s.map (·.id)).Nodup) (hu : u ∈ s) :
    GetUser s u.id = ⟨⟨true, "User found.", some u.to_dict⟩, none, s⟩ := by
  unfold GetUser
  rw [dbGet_ok_of_unique (k := fun v => v.id) (fun v => by simp) hnd hu]

/-- Behavior of `GetUser` on an id no row carries. -/
theorem GetUser_notFound {s : List User} {uid : Nat}
    (h : ∀ u ∈ s, u.id ≠ uid) :
    GetUser s uid = ⟨⟨false, "User not found.", none⟩, some .NOT_FOUND, s⟩ := by
  unfold GetUser
  rw [dbGet_notFound (fun u hu => by simpa using h u hu)]

/-- Behavior of `GetUserByEmail` on input lower-casing to a member row's email, under
unique emails. -/
theorem GetUserByEmail_found {s : List User} {u : User} {e : String}
    (hnd : (s.map (·.email)).Nodup) (hu : u ∈ s) (hlow : strLower e = u.email) :
    GetUserByEmail s e = ⟨⟨true, "User found.", some u.to_dict⟩, none, s⟩ := by
  unfold GetUserByEmail
  rw [dbGet_ok_of_unique (k := fun v => v.email) (fun v => by simp [hlow]) hnd hu]

/-- Behavior of `GetUserByEmail` when no row carries the lower-cased input email. -/
theorem GetUserByEmail_notFound {s : List User} {e : String}
    (h : ∀ u ∈ s, u.email ≠ strLower e) :
    GetUserByEmail s e = ⟨⟨false, "User not found.", none⟩, some .NOT_FOUND, s⟩ := by
  unfold GetUserByEmail
  rw [dbGet_notFound (fun u hu => by simpa using h u hu)]

/-- Behavior of `ValidateToken` on a verified token whose `user_id` matches no row. -/
theorem ValidateToken_userMissing {s : List User} {uid : Nat}
    (h : ∀ u ∈ s, u.id ≠ uid) :
    ValidateToken s (.ok uid) = ⟨⟨false, "User not found.", "", ""⟩, none, s⟩ := by
  simp only [ValidateToken]
  rw [dbGet_notFound (fun u hu => by simpa using h u hu)]

/-- Behavior of `ValidateToken` on a verified token for a member row: the activity flag
decides between the valid and the disabled response. -/
theorem ValidateToken_found {s : List User} {u : User}
    (hnd : (s.map (·.id)).Nodup) (hu : u ∈ s) :
    ValidateToken s (.ok u.id) =
      if u.is_active then
        ⟨⟨true, "Token is valid.", toString u.id, u.email⟩, none, s⟩
      else
        ⟨⟨false, "User account is disabled.", "", ""⟩, none, s⟩ := by
  simp only [ValidateToken]
  rw [dbGet_ok_of_unique (k := fun v => v.id) (fun v => by simp) hnd hu]
  cases h : u.is_active <;> simp [h]

end Helpers

/-- C1: for every token whose signature and expiry verify, `ValidateToken`
resolves the embedded `user_id` against the store and returns exactly one of
three outcomes: no such user → `valid=false` with "User not found."; user
exists but `is_active=false` → `valid=false` with "User account is disabled.";
otherwise `valid=true` carrying the user's id (as a string) and email. -/
theorem validateToken_resolves_user (s : List User) (uid : Nat)
    (hnd : (s.map (·.id)).Nodup) :
    ((∀ u ∈ s, u.id ≠ uid) →
      (ValidateToken s (.ok uid)).response = ⟨false, "User not found.", "", ""⟩) ∧
    (∀ u, u ∈ s → u.id = uid → u.is_active = false →
      (ValidateToken s (.ok uid)).response =
        ⟨false, "User account is disabled.", "", ""⟩) ∧
    (∀ u, u ∈ s → u.id = uid → u.is_active = true →
      (ValidateToken s (.ok uid)).response =
        ⟨true, "Token is valid.", toString u.id, u.email⟩) := by
  refine ⟨fun h => by rw [ValidateToken_userMissing h],
    fun u hu hid hact => ?_, fun u hu hid hact => ?_⟩
  · subst hid
    rw [ValidateToken_found hnd hu]
    simp [hact]
  · subst hid
    rw [ValidateToken_found hnd hu]
    simp [hact]

/-- Witness for C1 on the concrete store: user 4 exists but is inactive, user
3 is active, user 99 is absent. -/
theorem validateToken_resolves_user_witness :
    ((demoStore.map (·.id)).Nodup ∧
      (ValidateToken demoStore (.ok 4)).response =
        ⟨false, "User account is disabled.", "", ""⟩ ∧
      (ValidateToken demoStore (.ok 3)).response =
        ⟨true, "Token is valid.", "3", "cat@x.com"⟩) ∧
    ((∀ u ∈ demoStore, u.id ≠ 99) →
      (ValidateToken demoStore (.ok 99)).response =
        ⟨false, "User not found.", "", ""⟩) :=
  ⟨⟨by decide,
    (validateToken_resolves_user demoStore 4 (by decide)).2.1
      (mkUser 4 "dan@x.com" false 40) (by decide) (by decide) (by decide),
    (validateToken_resolves_user demoStore 3 (by decide)).2.2
      (mkUser 3 "cat@x.com" true 30) (by decide) (by decide) (by decide)⟩,
    (validateToken_resolves_user demoStore 99 (by decide)).1⟩

/-- C2: for every token failing signature or expiry verification,
`ValidateToken` answers `valid=false` with message `"Invalid token: <detail>"`
and empty `user_id` and `email` fields — no user identity is returned. -/
theorem validateToken_invalid_token (s : List User) (detail : String) :
    ValidateToken s (.tokenError detail) =
      ⟨⟨false, "Invalid token: " ++ detail, "", ""⟩, none, s⟩ := rfl

/-- C5: for every id present in the store, `GetUser` returns `success=true`
with exactly that stored record's serialized data, whether or not the user is
active. -/
theorem getUserById_exact_record (s : List User) (u : User)
    (hnd : (s.map (·.id)).Nodup) (hu : u ∈ s) :
    GetUser s u.id = ⟨⟨true, "User found.", some u.to_dict⟩, none, s⟩ :=
  GetUser_found hnd hu

/-- Witness for C5 on the concrete store, looking up the inactive user 4. -/
theorem getUserById_exact_record_witness :
    (demoStore.map (·.id)).Nodup ∧
    GetUser demoStore 4 =
      ⟨⟨true, "User found.",
        some ⟨"4", "dan@x.com", "", "", "", "", false, false, "40"⟩⟩, none,
        demoStore⟩ :=
  ⟨by decide,
    getUserById_exact_record demoStore (mkUser 4 "dan@x.com" false 40)
      (by decide) (by decide)⟩

/-- C6: email lookup is case-insensitive — for a stored user whose email is a
lower-cased string, `GetUserByEmail` succeeds on every input lower-casing to
it. -/
theorem getUserByEmail_case_insensitive (s : List User) (u : User) (e : String)
    (hnd : (s.map (·.email)).Nodup) (hu : u ∈ s) (hlow : strLower e = u.email) :
    GetUserByEmail s e = ⟨⟨true, "User found.", some u.to_dict⟩, none, s⟩ :=
  GetUserByEmail_found hnd hu hlow

/-- Witness for C6: `GetUserByEmail "A@B.com"` finds the record stored as
`a@b.com`. -/
theorem getUserByEmail_case_insensitive_witness :
    strLower "A@B.com" = "a@b.com" ∧
    GetUserByEmail [mkUser 1 "a@b.com" true 1] "A@B.com" =
      ⟨⟨true, "User found.",
        some ⟨"1", "a@b.com", "", "", "", "", true, false, "1"⟩⟩, none,
        [mkUser 1 "a@b.com" true 1]⟩ :=
  ⟨by decide,
    getUserByEmail_case_insensitive [mkUser 1 "a@b.com" true 1]
      (mkUser 1 "a@b.com" true 1) "A@B.com" (by decide) (by decide) (by decide)⟩

/-- C7: for every id and email with no matching record, `GetUser` and
`GetUserByEmail` answer `success=false`, message "User not found.", no user
payload, and set NOT_FOUND on the context. -/
theorem lookup_not_found (s : List User) (uid : Nat) (e : String)
    (h1 : ∀ u ∈ s, u.id ≠ uid) (h2 : ∀ u ∈ s, u.email ≠ strLower e) :
    GetUser s uid = ⟨⟨false, "User not found.", none⟩, some .NOT_FOUND, s⟩ ∧
    GetUserByEmail s e =
      ⟨⟨false, "User not found.", none⟩, some .NOT_FOUND, s⟩ :=
  ⟨GetUser_notFound h1, GetUserByEmail_notFound h2⟩

/-- Witness for C7 on the concrete store with the absent id 99 and the absent
email `ghost@x.com`. -/
theorem lookup_not_found_witness :
    (∀ u ∈ demoStore, u.id ≠ 99) ∧
    GetUser demoStore 99 =
      ⟨⟨false, "User not found.", none⟩, some .NOT_FOUND, demoStore⟩ ∧
    GetUserByEmail demoStore "ghost@x.com" =
      ⟨⟨false, "User not found.", none⟩, some .NOT_FOUND, demoStore⟩ :=
  ⟨by decide,
    (lookup_not_found demoStore 99 "ghost@x.com" (by decide) (by decide)).1,
    (lookup_not_found demoStore 99 "ghost@x.com" (by decide) (by decide)).2⟩

/-- Membership in the ordered active listing: exactly the active rows. -/
theorem mem_activeByRecency {s : List User} {u : User} :
    u ∈ activeByRecency s ↔ u ∈ s ∧ u.is_active = true := by
  unfold activeByRecency activeUsers
  rw [List.mem_insertionSort, List.mem_filter]

/-- The ordered active listing is sorted most-recently-created first. -/
theorem sorted_activeByRecency (s : List User) :
    (activeByRecency s).Pairwise fun a b => b.date_joined ≤ a.date_joined :=
  List.sorted_insertionSort recencyOrder (activeUsers s)

/-- C8: none of the four Lookup Service operations mutates the Credential
Store — for every store state and every request, the store after the call
equals the store before it, so every call is safe to retry. -/
theorem lookup_no_mutation (s : List User) (uid : Nat) (e : String)
    (tok : TokenVerify) (page size : Int) :
    (GetUser s uid).store = s ∧ (GetUserByEmail s e).store = s ∧
    (ValidateToken s tok).store = s ∧ (ListUsers s page size).store = s := by
  refine ⟨?_, ?_, ?_, ?_⟩
  · unfold GetUser
    split <;> rfl
  · unfold GetUserByEmail
    split <;> rfl
  · rcases tok with uid | d
    · simp only [ValidateToken]
      split
      · split <;> rfl
      · rfl
      · rfl
    · rfl
  · simp only [ListUsers]
    repeat' split
    all_goals rfl

/-- C3: for every store and every valid page/page_size (positive, with
`page_size` within the 100 cap), `ListUsers` succeeds, returns exactly the
window at `offset=(page-1)*page_size` of the active users ordered
most-recently-created first, every returned row is active, and `total` is the
count of all active users, not the page length. -/
theorem listUsers_active_window (s : List User) (page size : Int)
    (hp : 1 ≤ page) (hs1 : 1 ≤ size) (hs2 : size ≤ 100) :
    (ListUsers s page size).response.success = true ∧
    (ListUsers s page size).response.users =
      (((activeByRecency s).drop ((page - 1) * size).toNat).take size.toNat).map
        User.to_dict ∧
    (ListUsers s page size).response.total = (activeUsers s).length ∧
    (∀ d ∈ (ListUsers s page size).response.users, d.is_active = true) ∧
    ((activeByRecency s).Pairwise fun a b => b.date_joined ≤ a.date_joined) ∧
    (∀ u : User, u ∈ activeByRecency s ↔ u ∈ s ∧ u.is_active = true) := by
  have hpz : ¬ page = 0 := by omega
  have hsz : ¬ size = 0 := by omega
  have ha : 0 ≤ (page - 1) * size := mul_nonneg (by omega) (by omega)
  have hsub : ((page - 1) * size + size).toNat - ((page - 1) * size).toNat
      = size.toNat := by
    generalize (page - 1) * size = a at ha ⊢
    omega
  have key : ListUsers s page size =
      ⟨⟨true,
        (((activeByRecency s).drop ((page - 1) * size).toNat).take
          size.toNat).map User.to_dict,
        (activeUsers s).length⟩, none, s⟩ := by
    simp only [ListUsers, if_neg hpz, if_neg hsz, min_eq_left hs2]
    rw [if_neg (by rintro (h | h) <;> linarith), hsub]
  refine ⟨by rw [key], by rw [key], by rw [key], ?_,
    sorted_activeByRecency s, fun u => mem_activeByRecency⟩
  rw [key]
  intro d hd
  simp only [List.mem_map] at hd
  obtain ⟨u, hu, rfl⟩ := hd
  have humem : u ∈ activeByRecency s :=
    List.mem_of_mem_drop (List.mem_of_mem_take hu)
  exact (mem_activeByRecency.mp humem).2

/-- Witness for C3: the concrete store holds 3 active and 1 inactive user;
page 1 of size 2 returns 2 users with `total=3`, page 2 returns 1 user with
`total=3`, newest first. -/
theorem listUsers_active_window_witness :
    ((1:Int) ≤ 1 ∧ (1:Int) ≤ 2 ∧ (2:Int) ≤ 100 ∧
      (ListUsers demoStore 1 2).response.users.length = 2 ∧
      (ListUsers demoStore 1 2).response.total = 3 ∧
      (ListUsers demoStore 2 2).response.users.length = 1 ∧
      (ListUsers demoStore 2 2).response.total = 3 ∧
      (ListUsers demoStore 1 2).response.users.map (·.id) = ["3", "2"]) ∧
    ((ListUsers demoStore 2 2).response.success = true ∧
      (ListUsers demoStore 2 2).response.users =
        (((activeByRecency demoStore).drop ((((2:Int)) - 1) * 2).toNat).take
          (2:Int).toNat).map User.to_dict ∧
      (ListUsers demoStore 2 2).response.total =
        (activeUsers demoStore).length ∧
      (∀ d ∈ (ListUsers demoStore 2 2).response.users, d.is_active = true) ∧
      ((activeByRecency demoStore).Pairwise
        fun a b => b.date_joined ≤ a.date_joined) ∧
      (∀ u : User, u ∈ activeByRecency demoStore ↔
        u ∈ demoStore ∧ u.is_active = true)) :=
  ⟨by decide,
    listUsers_active_window demoStore 2 2 (by decide) (by decide) (by decide)⟩

/-- Counterexample to C4 as stated: a negative page is not defaulted to 1 —
`ListUsers` with `page=-1` yields the fault response with INTERNAL while
`page=1` succeeds, so the two calls do not behave identically. -/
theorem listUsers_negative_page_cex :
    (ListUsers demoStore (-1) 20).response.success = false ∧
    (ListUsers demoStore (-1) 20).statusCode = some .INTERNAL ∧
    (ListUsers demoStore 1 20).response.success = true ∧
    ListUsers demoStore (-1) 20 ≠ ListUsers demoStore 1 20 := by decide

/-- C4 (amended): `page` defaults to 1 only when absent/zero; a negative page
is not defaulted — the negative offset makes the store query fail, so
`ListUsers` returns the fault response `{success:false, users:[], total:0}`
with INTERNAL; `page_size` defaults to 20 when absent/zero and is clamped to
a maximum of 100, so `page_size=500` yields at most 100 results. -/
theorem listUsers_defaults_amended (s : List User) (page size : Int) :
    ListUsers s 0 size = ListUsers s 1 size ∧
    (page < 0 → 1 ≤ size →
      ListUsers s page size = ⟨⟨false, [], 0⟩, some .INTERNAL, s⟩) ∧
    ListUsers s page 0 = ListUsers s page 20 ∧
    (1 ≤ page → (ListUsers s page 500).response.users.length ≤ 100) := by
  refine ⟨?_, ?_, ?_, ?_⟩
  · simp only [ListUsers]
    norm_num
  · intro hneg hsz1
    have h20 : ¬ page = 0 := by omega
    have hs0 : ¬ size = 0 := by omega
    have hoff : (page - 1) * min size 100 < 0 :=
      mul_neg_of_neg_of_pos (by omega) (by positivity)
    simp only [ListUsers, if_neg h20, if_neg hs0]
    rw [if_pos (Or.inl hoff)]
  · simp only [ListUsers]
    norm_num
  · intro hp1
    have h20 : ¬ page = 0 := by omega
    have ha : 0 ≤ (page - 1) * 100 := mul_nonneg (by omega) (by norm_num)
    have hsub : ((page - 1) * 100 + 100).toNat - ((page - 1) * 100).toNat
        = 100 := by
      generalize (page - 1) * 100 = a at ha ⊢
      omega
    have hcond : ¬ ((page - 1) * 100 < 0 ∨ (page - 1) * 100 + 100 < 0) := by
      rintro (h | h) <;> linarith
    simp only [ListUsers, if_neg h20]
    norm_num
    rw [if_neg hcond, hsub]
    simp only [List.length_map, List.length_take]
    omega

/-- Witness for the amended C4 at concrete arguments: page -2 faults, a
500-sized page is clamped to at most 100 rows, and page 0 equals page 1. -/
theorem listUsers_defaults_amended_witness :
    ListUsers demoStore (-2) 20 = ⟨⟨false, [], 0⟩, some .INTERNAL, demoStore⟩ ∧
    (ListUsers demoStore 2 500).response.users.length ≤ 100 ∧
    ListUsers demoStore 0 20 = ListUsers demoStore 1 20 :=
  ⟨(listUsers_defaults_amended demoStore (-2) 20).2.1 (by decide) (by decide),
    (listUsers_defaults_amended demoStore 2 500).2.2.2 (by decide),
    (listUsers_defaults_amended demoStore 0 20).1⟩

/-- Serialization ignores the password hash. -/
theorem scrub_to_dict (u : User) : (User.scrub u).to_dict = u.to_dict := rfl

/-- Filtering by a hash-blind predicate commutes with blanking the hash. -/
theorem filter_map_scrub (s : List User) (p : User → Bool)
    (hp : ∀ u, p (User.scrub u) = p u) :
    (s.map User.scrub).filter p = (s.filter p).map User.scrub := by
  rw [List.filter_map]
  have h : p ∘ User.scrub = p := funext hp
  rw [h]

/-- Lemma: `QuerySet.get` by a hash-blind predicate commutes with blanking the
hash. -/
theorem dbGet_scrub (s : List User) (p : User → Bool)
    (hp : ∀ u, p (User.scrub u) = p u) :
    dbGet (s.map User.scrub) p = (dbGet s p).map User.scrub := by
  unfold dbGet
  rw [filter_map_scrub s p hp]
  rcases hf : s.filter p with _ | ⟨u, _ | ⟨v, l⟩⟩ <;> rfl

/-- A row produced by `QuerySet.get` is a member of the store. -/
theorem dbGet_ok_mem {s : List User} {p : User → Bool} {u : User}
    (h : dbGet s p = .ok u) : u ∈ s := by
  unfold dbGet at h
  rcases hfil : s.filter p with _ | ⟨v, _ | ⟨w, rest⟩⟩ <;> rw [hfil] at h
  · cases h
  · injection h with h'
    subst h'
    exact List.mem_of_mem_filter (hfil.symm ▸ List.mem_singleton_self v)
  · cases h

/-- The `GetUser` responses are unchanged by blanking password hashes. -/
theorem GetUser_scrub (s : List User) (uid : Nat) :
    (GetUser (s.map User.scrub) uid).response = (GetUser s uid).response ∧
    (GetUser (s.map User.scrub) uid).statusCode =
      (GetUser s uid).statusCode := by
  unfold GetUser
  rw [dbGet_scrub s (fun u => u.id == uid) (fun u => rfl)]
  rcases hf : dbGet s fun u => u.id == uid with b | u
  · cases b <;> exact ⟨rfl, rfl⟩
  · exact ⟨rfl, rfl⟩

/-- The `GetUserByEmail` responses are unchanged by blanking password hashes. -/
theorem GetUserByEmail_scrub (s : List User) (e : String) :
    (GetUserByEmail (s.map User.scrub) e).response =
      (GetUserByEmail s e).response ∧
    (GetUserByEmail (s.map User.scrub) e).statusCode =
      (GetUserByEmail s e).statusCode := by
  unfold GetUserByEmail
  rw [dbGet_scrub s (fun u => u.email == strLower e) (fun u => rfl)]
  rcases hf : dbGet s fun u => u.email == strLower e with b | u
  · cases b <;> exact ⟨rfl, rfl⟩
  · exact ⟨rfl, rfl⟩

/-- The `ValidateToken` responses are unchanged by blanking password hashes. -/
theorem ValidateToken_scrub (s : List User) (tok : TokenVerify) :
    (ValidateToken (s.map User.scrub) tok).response =
      (ValidateToken s tok).response ∧
    (ValidateToken (s.map User.scrub) tok).statusCode =
      (ValidateToken s tok).statusCode := by
  rcases tok with uid | d
  · simp only [ValidateToken]
    rw [dbGet_scrub s (fun u => u.id == uid) (fun u => rfl)]
    rcases hf : dbGet s fun u => u.id == uid with b | u
    · cases b <;> exact ⟨rfl, rfl⟩
    · cases hact : u.is_active <;>
        exact ⟨by simp [Except.map, User.scrub, hact],
          by simp [Except.map, User.scrub, hact]⟩
  · exact ⟨rfl, rfl⟩

/-- The ordered active listing commutes with blanking password hashes. -/
theorem activeByRecency_scrub (s : List User) :
    activeByRecency (s.map User.scrub) = (activeByRecency s).map User.scrub := by
  unfold activeByRecency activeUsers
  rw [filter_map_scrub s (fun u => u.is_active) (fun u => rfl)]
  exact (List.map_insertionSort (r := recencyOrder) (s := recencyOrder)
    User.scrub _ (fun a _ b _ => Iff.rfl)).symm

/-- The `ListUsers` responses are unchanged by blanking password hashes. -/
theorem ListUsers_scrub (s : List User) (page size : Int) :
    (ListUsers (s.map User.scrub) page size).response =
      (ListUsers s page size).response ∧
    (ListUsers (s.map User.scrub) page size).statusCode =
      (ListUsers s page size).statusCode := by
  have h1 : activeUsers (s.map User.scrub) = (activeUsers s).map User.scrub := by
    unfold activeUsers
    rw [filter_map_scrub s (fun u => u.is_active) (fun u => rfl)]
  have hcomp : User.to_dict ∘ User.scrub = User.to_dict := funext (fun u => rfl)
  constructor <;>
    · simp only [ListUsers, activeByRecency_scrub, h1, List.length_map,
        ← List.map_take, ← List.map_drop, List.map_map, hcomp]
      repeat' split
      all_goals rfl

/-- C9: the password hash is never exposed through the Lookup Service —
serialization does not read it, and two store states that agree after
blanking every password hash produce identical responses and status codes
for every request of every operation. -/
theorem password_hash_noninterference :
    (∀ u : User, (User.scrub u).to_dict = u.to_dict) ∧
    (∀ s t : List User, s.map User.scrub = t.map User.scrub →
      ∀ (uid : Nat) (e : String) (tok : TokenVerify) (page size : Int),
        (GetUser s uid).response = (GetUser t uid).response ∧
        (GetUser s uid).statusCode = (GetUser t uid).statusCode ∧
        (GetUserByEmail s e).response = (GetUserByEmail t e).response ∧
        (GetUserByEmail s e).statusCode = (GetUserByEmail t e).statusCode ∧
        (ValidateToken s tok).response = (ValidateToken t tok).response ∧
        (ValidateToken s tok).statusCode = (ValidateToken t tok).statusCode ∧
        (ListUsers s page size).response = (ListUsers t page size).response ∧
        (ListUsers s page size).statusCode =
          (ListUsers t page size).statusCode) := by
  refine ⟨fun u => rfl, fun s t h uid e tok page size =>
    ⟨?_, ?_, ?_, ?_, ?_, ?_, ?_, ?_⟩⟩
  · rw [← (GetUser_scrub s uid).1, ← (GetUser_scrub t uid).1, h]
  · rw [← (GetUser_scrub s uid).2, ← (GetUser_scrub t uid).2, h]
  · rw [← (GetUserByEmail_scrub s e).1, ← (GetUserByEmail_scrub t e).1, h]
  · rw [← (GetUserByEmail_scrub s e).2, ← (GetUserByEmail_scrub t e).2, h]
  · rw [← (ValidateToken_scrub s tok).1, ← (ValidateToken_scrub t tok).1, h]
  · rw [← (ValidateToken_scrub s tok).2, ← (ValidateToken_scrub t tok).2, h]
  · rw [← (ListUsers_scrub s page size).1, ← (ListUsers_scrub t page size).1, h]
  · rw [← (ListUsers_scrub s page size).2, ← (ListUsers_scrub t page size).2, h]

/-- Two one-row stores that differ only in the password hash. -/
def hashStoreA : List User :=
  [⟨1, "a@b.com", "", "", "", "", true, false, false, 1, "hash-one"⟩]

/-- Second of the pair of stores differing only in the password hash. -/
def hashStoreB : List User :=
  [⟨1, "a@b.com", "", "", "", "", true, false, false, 1, "hash-two"⟩]

/-- Witness for C9 on two concrete stores that differ only in a password
hash. -/
theorem password_hash_noninterference_witness :
    hashStoreA.map User.scrub = hashStoreB.map User.scrub ∧
    ((GetUser hashStoreA 1).response = (GetUser hashStoreB 1).response ∧
      (GetUser hashStoreA 1).statusCode = (GetUser hashStoreB 1).statusCode ∧
      (GetUserByEmail hashStoreA "a@b.com").response =
        (GetUserByEmail hashStoreB "a@b.com").response ∧
      (GetUserByEmail hashStoreA "a@b.com").statusCode =
        (GetUserByEmail hashStoreB "a@b.com").statusCode ∧
      (ValidateToken hashStoreA (.ok 1)).response =
        (ValidateToken hashStoreB (.ok 1)).response ∧
      (ValidateToken hashStoreA (.ok 1)).statusCode =
        (ValidateToken hashStoreB (.ok 1)).statusCode ∧
      (ListUsers hashStoreA 1 20).response =
        (ListUsers hashStoreB 1 20).response ∧
      (ListUsers hashStoreA 1 20).statusCode =
        (ListUsers hashStoreB 1 20).statusCode) :=
  ⟨by decide,
    password_hash_noninterference.2 hashStoreA hashStoreB (by decide)
      1 "a@b.com" (.ok 1) 1 20⟩

/-- C10: lookup round-trip — whenever `GetUserByEmail` succeeds with user
data `d`, `GetUser` on the id embedded in `d` succeeds and returns the same
user data. -/
theorem lookup_roundtrip (s : List User) (e : String) (d : UserData)
    (hnd : (s.map (·.id)).Nodup)
    (h : (GetUserByEmail s e).response.user = some d) :
    ∃ uid : Nat, d.id = toString uid ∧
      (GetUser s uid).response = ⟨true, "User found.", some d⟩ := by
  unfold GetUserByEmail at h
  rcases hf : dbGet s fun u => u.email == strLower e with b | u <;> rw [hf] at h
  · cases b <;> simp at h
  · have hd : u.to_dict = d := by simpa using h
    have hu : u ∈ s := dbGet_ok_mem hf
    refine ⟨u.id, ?_, ?_⟩
    · rw [← hd]
      rfl
    · rw [GetUser_found hnd hu, ← hd]

/-- Witness for C10 on the concrete store: a case-insensitive email lookup of
user 2 round-trips through `GetUser 2`. -/
theorem lookup_roundtrip_witness :
    (demoStore.map (·.id)).Nodup ∧
    ∃ uid : Nat,
      (⟨"2", "bob@x.com", "", "", "", "", true, false, "20"⟩ : UserData).id =
        toString uid ∧
      (GetUser demoStore uid).response =
        ⟨true, "User found.",
          some ⟨"2", "bob@x.com", "", "", "", "", true, false, "20"⟩⟩ :=
  ⟨by decide,
    lookup_roundtrip demoStore "Bob@X.com"
      ⟨"2", "bob@x.com", "", "", "", "", true, false, "20"⟩
      (by decide) (by decide)⟩
